import Mathlib

/-!
Verification of the Kubernetes agent tool layer (`kubernetes_agent/agent.py`).

The Python module is embedded shallowly: every interaction with the outside
world (filesystem, process environment, Kubernetes API server) is a field of an
explicit `World`/`ConfigWorld` record, exceptions raised by remote calls are
`Except` values, and the JSON-serializable dictionaries the tools return are
association lists of `JVal` values that preserve Python's insertion order.
-/

namespace KubeAgent

/-- JSON-like values: the shape of the dictionaries the agent's tools return. -/
inductive JVal where
  | s (v : String)
  | i (v : Int)
  | b (v : Bool)
  | null
  | arr (vs : List JVal)
  | obj (fields : List (String × JVal))
deriving Repr

/-- A Python dictionary with string keys, in insertion order. -/
abbrev Rec := List (String × JVal)

/-- Key lookup in a returned dictionary (Python `d[k]` / `k in d`). -/
def getField : Rec → String → Option JVal
  | [], _ => none
  | (k2, v) :: rest, k => if k2 = k then some v else getField rest k

/-- Lookup of a key inside a nested dictionary value. -/
def jGetField : JVal → String → Option JVal
  | .obj fields, k => getField fields k
  | _, _ => none

/-- Python truthiness of an `Optional[str]`: `None` and `""` are falsy. -/
def truthyStr : Option String → Bool
  | some s => s ≠ ""
  | none => false

/-- Python truthiness of an optional list: `None` and `[]` are falsy. -/
def truthyList {α : Type} : Option (List α) → Bool
  | some l => !l.isEmpty
  | none => false

/-- Python truthiness of an `Optional[int]`: `None` and `0` are falsy. -/
def truthyInt : Option Int → Bool
  | some n => n ≠ 0
  | none => false

/-- Python `str()` of an optional string-rendered value: `str(None) = "None"`. -/
def pyStr : Option String → String
  | some s => s
  | none => "None"

/-- Python `or`-defaulting of an optional count (`x or 0`). -/
def pyOrZero : Option Int → Int
  | some n => n
  | none => 0

/-- ASCII lowering of one character, as Python `str.lower` does on ASCII text. -/
def lowerChar (c : Char) : Char :=
  if c = 'A' then 'a' else if c = 'B' then 'b' else if c = 'C' then 'c'
  else if c = 'D' then 'd' else if c = 'E' then 'e' else if c = 'F' then 'f'
  else if c = 'G' then 'g' else if c = 'H' then 'h' else if c = 'I' then 'i'
  else if c = 'J' then 'j' else if c = 'K' then 'k' else if c = 'L' then 'l'
  else if c = 'M' then 'm' else if c = 'N' then 'n' else if c = 'O' then 'o'
  else if c = 'P' then 'p' else if c = 'Q' then 'q' else if c = 'R' then 'r'
  else if c = 'S' then 's' else if c = 'T' then 't' else if c = 'U' then 'u'
  else if c = 'V' then 'v' else if c = 'W' then 'w' else if c = 'X' then 'x'
  else if c = 'Y' then 'y' else if c = 'Z' then 'z' else c

/-- Python `s.lower()` (restricted to ASCII, which is all the agent compares). -/
def pyLower (s : String) : String := ⟨s.data.map lowerChar⟩

/-- Whitespace characters stripped by Python `str.strip()` (ASCII range). -/
def pyWsChar (c : Char) : Bool :=
  c = ' ' || c = '\t' || c = '\n' || c = '\r' || c = '\x0b' || c = '\x0c'

/-- Python `s.strip()`: removes leading and trailing whitespace. -/
def pyStrip (s : String) : String :=
  ⟨((s.data.dropWhile pyWsChar).reverse.dropWhile pyWsChar).reverse⟩

/-- Splitting helper mirroring Python `s.split(sep)` on a single character. -/
def splitCharAux (sep : Char) (cur : List Char) : List Char → List (List Char)
  | [] => [cur.reverse]
  | c :: rest =>
    if c = sep then cur.reverse :: splitCharAux sep [] rest
    else splitCharAux sep (c :: cur) rest

/-- Python `s.split(sep)` for a one-character separator. -/
def pySplitChar (sep : Char) (s : String) : List String :=
  (splitCharAux sep [] s.data).map (fun l => ⟨l⟩)

/-- Substring containment on character lists (Python `sub in s`). -/
def containsSubL (sub : List Char) : List Char → Bool
  | [] => sub.isEmpty
  | c :: rest => sub.isPrefixOf (c :: rest) || containsSubL sub rest

/-- Python `sub in s` for strings. -/
def strContains (sub s : String) : Bool := containsSubL sub.data s.data

/-- Removal of every (leftmost, non-overlapping) occurrence of `sub`, mirroring
Python `s.replace(sub, "")`. The fuel argument only bounds the recursion depth:
one unit per consumed character is always enough. -/
def removeAllFuel (sub : List Char) : Nat → List Char → List Char
  | 0, l => l
  | _ + 1, [] => []
  | n + 1, c :: rest =>
    if !sub.isEmpty && sub.isPrefixOf (c :: rest) then
      removeAllFuel sub n ((c :: rest).drop sub.length)
    else
      c :: removeAllFuel sub n rest

/-- Python `l.replace(sub, "")` on character lists. -/
def removeAllL (sub l : List Char) : List Char := removeAllFuel sub l.length l

/-- Python `s.replace(sub, "")` for strings. -/
def strRemoveAll (sub s : String) : String := ⟨removeAllL sub.data s.data⟩

/-- Python `repr` of a list of strings, as an f-string renders it
(`"['app', 'sidecar']"`). -/
def pyListRepr (l : List String) : String :=
  "[" ++ String.intercalate ", " (l.map (fun s => "'" ++ s ++ "'")) ++ "]"

/-- First-match lookup in a string-to-string dictionary (Python `d.get(k)`). -/
def dictGet : List (String × String) → String → Option String
  | [], _ => none
  | (k2, v) :: rest, k => if k2 = k then some v else dictGet rest k

/-- Python `d[k] = v` on a string dictionary: an existing key keeps its position
and gets the new value, a fresh key is appended. -/
def dictInsert (d : List (String × String)) (k v : String) : List (String × String) :=
  if d.any (fun p => p.1 = k) then d.map (fun p => if p.1 = k then (k, v) else p)
  else d ++ [(k, v)]

/-- Exceptions that the kubernetes `config` module's loaders can raise. -/
inductive CfgExc where
  | configException (msg : String)
  | otherException (msg : String)
deriving Repr, DecidableEq

/-- Python `str(e)` of a config-loading exception. -/
def CfgExc.str : CfgExc → String
  | .configException m => m
  | .otherException m => m

/-- Exceptions that a Kubernetes API call can raise: `ApiException` carries the
HTTP status, the server reason and `str(e.body)`; anything else is a generic
`Exception` rendered by its message. -/
inductive Exc where
  | apiException (status : Int) (reason : String) (body : String)
  | otherException (msg : String)
deriving Repr, DecidableEq

/-- Python `str(e)` of an API-call exception. -/
def Exc.str : Exc → String
  | .apiException st r _ => s!"({st}) Reason: {r}"
  | .otherException m => m

/-- The environment `load_kubernetes_config` interacts with: the filesystem
(`os.path.exists`), the process environment (`KUBECONFIG`) and the outcome of
each config-loading primitive of the kubernetes `config` module. -/
structure ConfigWorld where
  pathExists : String → Bool
  kubeconfigEnv : Option String
  loadKubeConfigFile : String → Except CfgExc Unit
  loadInclusterConfig : Except CfgExc Unit
  loadKubeConfigDefault : Except CfgExc Unit

/-- One config-loading attempt, recorded in order. -/
inductive ConfigAttempt where
  | loadExplicit (p : String)
  | loadEnv (p : String)
  | loadIncluster
  | loadDefault
deriving Repr, DecidableEq

/-- The `try` body of `load_kubernetes_config` (agent.py lines 42-54): the
explicit-path branch, the `KUBECONFIG` branch, or the in-cluster branch,
together with the attempt it made. -/
def loadPrimary (w : ConfigWorld) (kubeconfig_path : Option String) :
    Except CfgExc String × List ConfigAttempt :=
  match kubeconfig_path with
  | some p =>
    if p ≠ "" && w.pathExists p then
      match w.loadKubeConfigFile p with
      | .ok _ => (.ok s!"Loaded kubeconfig from: {p}", [.loadExplicit p])
      | .error e => (.error e, [.loadExplicit p])
    else loadEnvOrIncluster w
  | none => loadEnvOrIncluster w
where
  /-- The `elif`/`else` branches of lines 46-54. -/
  loadEnvOrIncluster (w : ConfigWorld) : Except CfgExc String × List ConfigAttempt :=
    match w.kubeconfigEnv with
    | some p =>
      if p ≠ "" then
        match w.loadKubeConfigFile p with
        | .ok _ => (.ok s!"Loaded kubeconfig from KUBECONFIG env var: {p}", [.loadEnv p])
        | .error e => (.error e, [.loadEnv p])
      else
        match w.loadInclusterConfig with
        | .ok _ => (.ok "Loaded in-cluster config (running inside Kubernetes)", [.loadIncluster])
        | .error e => (.error e, [.loadIncluster])
    | none =>
      match w.loadInclusterConfig with
      | .ok _ => (.ok "Loaded in-cluster config (running inside Kubernetes)", [.loadIncluster])
      | .error e => (.error e, [.loadIncluster])

/-- Shallow embedding of `load_kubernetes_config` (agent.py lines 30-61):
the returned status string (`.error` when a non-`ConfigException` exception
escapes the function) paired with the ordered list of loading attempts.
A `ConfigException` from the primary branch triggers the fallback to the
default kubeconfig location; when that also fails the function returns a
string holding both failure messages. -/
def load_kubernetes_config (w : ConfigWorld) (kubeconfig_path : Option String := none) :
    Except CfgExc String × List ConfigAttempt :=
  match loadPrimary w kubeconfig_path with
  | (.error (.configException m), att) =>
    match w.loadKubeConfigDefault with
    | .ok _ => (.ok "Loaded kubeconfig from default location (~/.kube/config)", att ++ [.loadDefault])
    | .error fe => (.ok s!"Failed to load any Kubernetes config: {m}, {fe.str}", att ++ [.loadDefault])
  | other => other

/-- The guard of the explicit-path branch (line 42): a truthy path argument
whose file exists. -/
def explicitApplies (w : ConfigWorld) (kubeconfig_path : Option String) : Bool :=
  match kubeconfig_path with
  | some p => p ≠ "" && w.pathExists p
  | none => false

/-! ## The Kubernetes object shapes the agent reads

Only the attributes the Python code actually accesses are modelled.  Optional
attributes are `Option`; values the code only ever stringifies (timestamps)
are modelled as their `str()` rendering. -/

/-- `metadata` of a Kubernetes object (the accessed attributes). -/
structure ObjectMeta where
  name : Option String := none
  ns : Option String := none
  labels : Option (List (String × String)) := none
  annotations : Option (List (String × String)) := none
  uid : Option String := none
  creation_timestamp : Option String := none
deriving Repr, DecidableEq

/-- `V1ContainerStateRunning` (accessed attribute only). -/
structure ContainerStateRunning where
  started_at : Option String := none
deriving Repr, DecidableEq

/-- `V1ContainerStateTerminated` (accessed attributes only). -/
structure ContainerStateTerminated where
  exit_code : Option Int := none
  reason : Option String := none
  message : Option String := none
deriving Repr, DecidableEq

/-- `V1ContainerStateWaiting` (accessed attributes only). -/
structure ContainerStateWaiting where
  reason : Option String := none
  message : Option String := none
deriving Repr, DecidableEq

/-- `V1ContainerState`: each member is optional. -/
structure ContainerState where
  running : Option ContainerStateRunning := none
  terminated : Option ContainerStateTerminated := none
  waiting : Option ContainerStateWaiting := none
deriving Repr, DecidableEq

/-- `V1ContainerStatus` (accessed attributes only). -/
structure ContainerStatus where
  name : String
  ready : Bool
  restart_count : Int
  image : String := ""
  image_id : String := ""
  container_id : Option String := none
  state : Option ContainerState := none
deriving Repr, DecidableEq

/-- `V1ContainerPort` (accessed attributes only). -/
structure ContainerPort where
  container_port : Int
  protocol : Option String := none
deriving Repr, DecidableEq

/-- `V1EnvVar` (accessed attributes only). -/
structure EnvVarItem where
  name : String
  value : Option String := none
deriving Repr, DecidableEq

/-- `V1ResourceRequirements` (accessed attributes only). -/
structure ResourceRequirements where
  requests : Option (List (String × String)) := none
  limits : Option (List (String × String)) := none
deriving Repr, DecidableEq

/-- `V1Container` in a pod spec (accessed attributes only). -/
structure ContainerSpec where
  name : String
  image : Option String := none
  ports : Option (List ContainerPort) := none
  env : Option (List EnvVarItem) := none
  resources : Option ResourceRequirements := none
deriving Repr, DecidableEq

/-- `V1PodCondition` (accessed attributes only). -/
structure PodCondition where
  type : String
  status : String
  reason : Option String := none
  message : Option String := none
  last_transition_time : Option String := none
deriving Repr, DecidableEq

/-- `V1PodStatus` (accessed attributes only). -/
structure PodStatus where
  phase : Option String := none
  message : Option String := none
  reason : Option String := none
  pod_ip : Option String := none
  host_ip : Option String := none
  start_time : Option String := none
  container_statuses : Option (List ContainerStatus) := none
  conditions : Option (List PodCondition) := none
deriving Repr, DecidableEq

/-- `V1PodSpec` (accessed attributes only). -/
structure PodSpec where
  node_name : Option String := none
  restart_policy : Option String := none
  service_account_name : Option String := none
  containers : List ContainerSpec := []
deriving Repr, DecidableEq

/-- A `V1Pod`, as returned by list and read calls. -/
structure PodItem where
  metadata : ObjectMeta := {}
  spec : PodSpec := {}
  status : PodStatus := {}
deriving Repr, DecidableEq

/-- `V1NodeCondition` (accessed attributes only). -/
structure NodeCondition where
  type : String
  status : String
deriving Repr, DecidableEq

/-- `V1NodeSystemInfo` (accessed attributes only). -/
structure NodeInfo where
  kubelet_version : String := ""
  operating_system : String := ""
  architecture : String := ""
deriving Repr, DecidableEq

/-- `V1NodeStatus` (accessed attributes only). -/
structure NodeStatus where
  conditions : Option (List NodeCondition) := none
  capacity : Option (List (String × String)) := none
  allocatable : Option (List (String × String)) := none
  node_info : Option NodeInfo := none
deriving Repr, DecidableEq

/-- A `V1Node`. -/
structure NodeItem where
  metadata : ObjectMeta := {}
  status : NodeStatus := {}
deriving Repr, DecidableEq

/-- `V1NamespaceStatus` (accessed attribute only). -/
structure NamespaceStatus where
  phase : Option String := none
deriving Repr, DecidableEq

/-- A `V1Namespace`. -/
structure NamespaceItem where
  metadata : ObjectMeta := {}
  status : NamespaceStatus := {}
deriving Repr, DecidableEq

/-- `V1ServicePort` (accessed attributes only); `target_port` is modelled by its
`str()` rendering. -/
structure ServicePort where
  name : Option String := none
  protocol : Option String := none
  port : Int
  target_port : Option String := none
  node_port : Option Int := none
deriving Repr, DecidableEq

/-- One load-balancer ingress entry (accessed attribute only). -/
structure LoadBalancerIngressItem where
  ip : Option String := none
deriving Repr, DecidableEq

/-- `V1LoadBalancerStatus` (accessed attribute only). -/
structure LoadBalancerStatus where
  ingress : Option (List LoadBalancerIngressItem) := none
deriving Repr, DecidableEq

/-- `V1ServiceSpec` (accessed attributes only). -/
structure ServiceSpec where
  type : Option String := none
  cluster_ip : Option String := none
  external_i_ps : Option (List String) := none
  ports : Option (List ServicePort) := none
deriving Repr, DecidableEq

/-- `V1ServiceStatus` (accessed attribute only). -/
structure ServiceStatus where
  load_balancer : Option LoadBalancerStatus := none
deriving Repr, DecidableEq

/-- A `V1Service`. -/
structure ServiceItem where
  metadata : ObjectMeta := {}
  spec : ServiceSpec := {}
  status : ServiceStatus := {}
deriving Repr, DecidableEq

/-- `V1DeploymentCondition` (accessed attributes only). -/
structure DeploymentCondition where
  type : String
  status : String
  reason : Option String := none
  message : Option String := none
deriving Repr, DecidableEq

/-- `V1DeploymentSpec` (accessed attribute only). -/
structure DeploymentSpec where
  replicas : Option Int := none
deriving Repr, DecidableEq

/-- `V1DeploymentStatus` (accessed attributes only). -/
structure DeploymentStatus where
  ready_replicas : Option Int := none
  available_replicas : Option Int := none
  updated_replicas : Option Int := none
  conditions : Option (List DeploymentCondition) := none
deriving Repr, DecidableEq

/-- A `V1Deployment`. -/
structure DeploymentItem where
  metadata : ObjectMeta := {}
  spec : DeploymentSpec := {}
  status : DeploymentStatus := {}
deriving Repr, DecidableEq

/-- The keyword arguments passed to `read_namespaced_pod_log` (get_logs,
lines 475-487): `tail_lines`/`since_seconds` are only passed when not `None`,
which the `Option` already expresses. -/
structure LogReq where
  name : String
  ns : String
  container : Option String
  previous : Bool
  timestamps : Bool
  tail_lines : Option Int := none
  since_seconds : Option Int := none
deriving Repr, DecidableEq

/-- One Kubernetes API call issued by an operation, as observed by the server. -/
inductive ApiCall where
  | listPodAll (label_selector : Option String)
  | listPodNs (ns : String) (label_selector : Option String)
  | listSvcAll
  | listSvcNs (ns : String)
  | listDepAll
  | listDepNs (ns : String)
  | readPod (name ns : String)
  | readLog (req : LogReq)
deriving Repr, DecidableEq

/-- The full environment of the agent's operations: the config-loading world
plus the response of the Kubernetes API server to each possible call. -/
structure World where
  cfg : ConfigWorld
  list_pod_for_all_namespaces : Option String → Except Exc (List PodItem)
  list_namespaced_pod : String → Option String → Except Exc (List PodItem)
  list_node : Except Exc (List NodeItem)
  list_namespace : Except Exc (List NamespaceItem)
  list_service_for_all_namespaces : Except Exc (List ServiceItem)
  list_namespaced_service : String → Except Exc (List ServiceItem)
  list_deployment_for_all_namespaces : Except Exc (List DeploymentItem)
  list_namespaced_deployment : String → Except Exc (List DeploymentItem)
  read_namespaced_pod : String → String → Except Exc PodItem
  read_namespaced_pod_log : LogReq → Except Exc String

/-! ## Output formatting helpers shared by the operations -/

/-- An optional string attribute placed into a result dictionary: Python `None`
serializes as JSON null. -/
def jopt : Option String → JVal
  | some s => .s s
  | none => .null

/-- An optional integer attribute placed into a result dictionary. -/
def jint : Option Int → JVal
  | some n => .i n
  | none => .null

/-- A labels/annotations dictionary placed into a result (`labels or {}`). -/
def jlabels (l : Option (List (String × String))) : JVal :=
  .obj ((l.getD []).map (fun kv => (kv.1, JVal.s kv.2)))

/-- The generic error record built by every `except Exception` clause:
`{"status": "error", "error_message": <msg>}`. -/
def excRec (msg : String) : Rec :=
  [("status", .s "error"), ("error_message", .s msg)]

/-- The error record built by the uniform `except ApiException` clauses:
`{"status": "error", "error_message": "Kubernetes API error: ...",
"error_code": e.status}`. -/
def apiErrRec (reason : String) (st : Int) : Rec :=
  [("status", .s "error"),
   ("error_message", .s s!"Kubernetes API error: {reason}"),
   ("error_code", .i st)]

/-- The `pod_info` dictionary built for one pod (get_pods, lines 97-119). -/
def formatPodInfo (pod : PodItem) : JVal :=
  .obj ([
    ("name", jopt pod.metadata.name),
    ("namespace", jopt pod.metadata.ns),
    ("status", jopt pod.status.phase),
    ("pod_ip", jopt pod.status.pod_ip),
    ("node", jopt pod.spec.node_name),
    ("containers", .i pod.spec.containers.length),
    ("labels", jlabels pod.metadata.labels)
  ] ++ (if truthyList pod.status.container_statuses then
      [("container_statuses", .arr ((pod.status.container_statuses.getD []).map (fun cs =>
        .obj [("name", .s cs.name), ("ready", .b cs.ready),
              ("restart_count", .i cs.restart_count)])))]
    else []))

/-- The condition-type to condition-status dictionary of one node
(get_nodes, lines 162-165): built by Python dict assignment, so a repeated
condition type keeps its first position with the last status written. -/
def nodeConditionsMap (node : NodeItem) : List (String × String) :=
  (node.status.conditions.getD []).foldl (fun d c => dictInsert d c.type c.status) []

/-- The role list of one node (get_nodes, lines 174 and 191-200): every label
key containing `node-role.kubernetes.io/` contributes the key with that text
removed (skipped when empty), and `["worker"]` stands in when nothing was
collected. -/
def nodeRoles (node : NodeItem) : List String :=
  let collected := ((node.metadata.labels.getD []).map Prod.fst).filterMap
    (fun label_key =>
      if strContains "node-role.kubernetes.io/" label_key then
        let role := strRemoveAll "node-role.kubernetes.io/" label_key
        if role ≠ "" then some role else none
      else none)
  if collected.isEmpty then ["worker"] else collected

/-- The `node_info` dictionary built for one node (get_nodes, lines 160-202). -/
def formatNode (node : NodeItem) : JVal :=
  let conditions := nodeConditionsMap node
  let capacity := node.status.capacity.getD []
  let allocatable := node.status.allocatable.getD []
  .obj [
    ("name", jopt node.metadata.name),
    ("status", .s (if dictGet conditions "Ready" = some "True" then "Ready" else "NotReady")),
    ("roles", .arr ((nodeRoles node).map JVal.s)),
    ("version", .s (match node.status.node_info with
      | some i => i.kubelet_version
      | none => "Unknown")),
    ("os", .s (match node.status.node_info with
      | some i => i.operating_system
      | none => "Unknown")),
    ("architecture", .s (match node.status.node_info with
      | some i => i.architecture
      | none => "Unknown")),
    ("capacity", .obj [
      ("cpu", .s ((dictGet capacity "cpu").getD "Unknown")),
      ("memory", .s ((dictGet capacity "memory").getD "Unknown")),
      ("pods", .s ((dictGet capacity "pods").getD "Unknown"))]),
    ("allocatable", .obj [
      ("cpu", .s ((dictGet allocatable "cpu").getD "Unknown")),
      ("memory", .s ((dictGet allocatable "memory").getD "Unknown")),
      ("pods", .s ((dictGet allocatable "pods").getD "Unknown"))]),
    ("conditions", .obj (conditions.map (fun kv => (kv.1, JVal.s kv.2))))
  ]

/-- The `namespace_info` dictionary for one namespace (get_namespaces,
lines 243-250). -/
def formatNamespaceInfo (item : NamespaceItem) : JVal :=
  .obj [
    ("name", jopt item.metadata.name),
    ("status", jopt item.status.phase),
    ("created", .s (pyStr item.metadata.creation_timestamp)),
    ("labels", jlabels item.metadata.labels)
  ]

/-- One entry of the `ports` list of a service (get_services, lines 309-317). -/
def formatServicePort (port : ServicePort) : JVal :=
  .obj [
    ("name", jopt port.name),
    ("protocol", jopt port.protocol),
    ("port", .i port.port),
    ("target_port", if truthyStr port.target_port then .s (port.target_port.getD "") else .null),
    ("node_port", jint port.node_port)
  ]

/-- The `service_info` dictionary for one service (get_services,
lines 297-326). -/
def formatService (svc : ServiceItem) : JVal :=
  .obj ([
    ("name", jopt svc.metadata.name),
    ("namespace", jopt svc.metadata.ns),
    ("type", jopt svc.spec.type),
    ("cluster_ip", jopt svc.spec.cluster_ip),
    ("external_ip", .arr ((svc.spec.external_i_ps.getD []).map JVal.s)),
    ("ports", .arr ((svc.spec.ports.getD []).map formatServicePort))
  ] ++ (match svc.spec.type, svc.status.load_balancer with
    | some "LoadBalancer", some lb =>
      if truthyList lb.ingress then
        [("load_balancer_ip", .arr (((lb.ingress.getD []).filterMap
          (fun ing => match ing.ip with
            | some ip => if ip ≠ "" then some ip else none
            | none => none)).map JVal.s))]
      else []
    | _, _ => []))

/-- The `deployment_info` dictionary for one deployment (get_deployments,
lines 373-395). -/
def formatDeployment (dep : DeploymentItem) : JVal :=
  .obj [
    ("name", jopt dep.metadata.name),
    ("namespace", jopt dep.metadata.ns),
    ("replicas", jint dep.spec.replicas),
    ("ready_replicas", .i (pyOrZero dep.status.ready_replicas)),
    ("available_replicas", .i (pyOrZero dep.status.available_replicas)),
    ("updated_replicas", .i (pyOrZero dep.status.updated_replicas)),
    ("labels", jlabels dep.metadata.labels),
    ("conditions", .arr ((dep.status.conditions.getD []).map (fun c =>
      .obj [("type", .s c.type), ("status", .s c.status),
            ("reason", jopt c.reason), ("message", jopt c.message)])))
  ]

/-- The `container_info` dictionary for one container spec (describe_pod,
lines 594-621): env entries keep only variables with a direct truthy value. -/
def formatContainerSpec (container : ContainerSpec) : JVal :=
  .obj [
    ("name", .s container.name),
    ("image", jopt container.image),
    ("ports", .arr ((container.ports.getD []).map (fun p =>
      .obj [("container_port", .i p.container_port), ("protocol", jopt p.protocol)]))),
    ("env", .arr (((container.env.getD []).filter (fun e => truthyStr e.value)).map (fun e =>
      .obj [("name", .s e.name), ("value", jopt e.value)]))),
    ("resources", .obj (match container.resources with
      | none => []
      | some r =>
        (if truthyList r.requests then
          [("requests", .obj ((r.requests.getD []).map (fun kv => (kv.1, JVal.s kv.2))))]
        else []) ++
        (if truthyList r.limits then
          [("limits", .obj ((r.limits.getD []).map (fun kv => (kv.1, JVal.s kv.2))))]
        else [])))
  ]

/-- The tagged `state` entry of a container status (describe_pod,
lines 636-654): `running`, else `terminated`, else `waiting`, else nothing. -/
def containerStateEntry (st : ContainerState) : Rec :=
  match st.running with
  | some r => [("state", .obj [("running", .obj [("started_at", .s (pyStr r.started_at))])])]
  | none =>
    match st.terminated with
    | some t => [("state", .obj [("terminated", .obj [
        ("exit_code", jint t.exit_code),
        ("reason", jopt t.reason),
        ("message", jopt t.message)])])]
    | none =>
      match st.waiting with
      | some wa => [("state", .obj [("waiting", .obj [
          ("reason", jopt wa.reason),
          ("message", jopt wa.message)])])]
      | none => []

/-- The `status_info` dictionary for one container status (describe_pod,
lines 626-656). -/
def formatContainerStatusDetail (cs : ContainerStatus) : JVal :=
  .obj ([
    ("name", .s cs.name),
    ("ready", .b cs.ready),
    ("restart_count", .i cs.restart_count),
    ("image", .s cs.image),
    ("image_id", .s cs.image_id),
    ("container_id", jopt cs.container_id)
  ] ++ (match cs.state with
    | some st => containerStateEntry st
    | none => []))

/-- The `pod_details` dictionary of describe_pod (lines 568-667): the
`conditions` key keeps its creation position, `container_statuses` is appended
after `events` when present. -/
def describePodDetails (pod : PodItem) : JVal :=
  .obj ([
    ("name", jopt pod.metadata.name),
    ("namespace", jopt pod.metadata.ns),
    ("uid", jopt pod.metadata.uid),
    ("created", .s (pyStr pod.metadata.creation_timestamp)),
    ("labels", jlabels pod.metadata.labels),
    ("annotations", jlabels pod.metadata.annotations),
    ("status", .obj [
      ("phase", jopt pod.status.phase),
      ("message", jopt pod.status.message),
      ("reason", jopt pod.status.reason),
      ("pod_ip", jopt pod.status.pod_ip),
      ("host_ip", jopt pod.status.host_ip),
      ("start_time", match pod.status.start_time with
        | some t => .s t
        | none => .null)]),
    ("spec", .obj [
      ("node_name", jopt pod.spec.node_name),
      ("restart_policy", jopt pod.spec.restart_policy),
      ("service_account", jopt pod.spec.service_account_name),
      ("containers", .arr (pod.spec.containers.map formatContainerSpec))]),
    ("conditions", .arr ((pod.status.conditions.getD []).map (fun c =>
      .obj [("type", .s c.type), ("status", .s c.status),
            ("reason", jopt c.reason), ("message", jopt c.message),
            ("last_transition_time", .s (pyStr c.last_transition_time))]))),
    ("events", .arr [])
  ] ++ (if truthyList pod.status.container_statuses then
      [("container_statuses", .arr ((pod.status.container_statuses.getD []).map
        formatContainerStatusDetail))]
    else []))

/-! ## The seven public operations -/

/-- Shallow embedding of `get_pods` (lines 64-138): the result dictionary
paired with the Kubernetes API list calls issued. -/
def get_pods (w : World) (ns : String := "all") (label_selector : Option String := none) :
    Rec × List ApiCall :=
  match (load_kubernetes_config w.cfg).1 with
  | .error e => (excRec s!"Error listing pods: {e.str}", [])
  | .ok config_status =>
    let res := if pyLower ns = "all" then w.list_pod_for_all_namespaces label_selector
      else w.list_namespaced_pod ns label_selector
    let call := if pyLower ns = "all" then ApiCall.listPodAll label_selector
      else ApiCall.listPodNs ns label_selector
    match res with
    | .error (.apiException st reason _) => (apiErrRec reason st, [call])
    | .error e => (excRec s!"Error listing pods: {e.str}", [call])
    | .ok pods =>
      let pod_list := pods.map formatPodInfo
      ([("status", .s "success"),
        ("config_info", .s config_status),
        ("pod_count", .i pod_list.length),
        ("pods", .arr pod_list)], [call])

/-- Shallow embedding of `get_nodes` (lines 141-221). -/
def get_nodes (w : World) : Rec :=
  match (load_kubernetes_config w.cfg).1 with
  | .error e => excRec s!"Error listing nodes: {e.str}"
  | .ok config_status =>
    match w.list_node with
    | .error (.apiException st reason _) => apiErrRec reason st
    | .error e => excRec s!"Error listing nodes: {e.str}"
    | .ok nodes =>
      let node_list := nodes.map formatNode
      [("status", .s "success"),
       ("config_info", .s config_status),
       ("node_count", .i node_list.length),
       ("nodes", .arr node_list)]

/-- Shallow embedding of `get_namespaces` (lines 224-269). -/
def get_namespaces (w : World) : Rec :=
  match (load_kubernetes_config w.cfg).1 with
  | .error e => excRec s!"Error listing namespaces: {e.str}"
  | .ok config_status =>
    match w.list_namespace with
    | .error (.apiException st reason _) => apiErrRec reason st
    | .error e => excRec s!"Error listing namespaces: {e.str}"
    | .ok items =>
      let namespace_list := items.map formatNamespaceInfo
      [("status", .s "success"),
       ("config_info", .s config_status),
       ("namespace_count", .i namespace_list.length),
       ("namespaces", .arr namespace_list)]

/-- Shallow embedding of `get_services` (lines 272-345): the result dictionary
paired with the API list calls issued. -/
def get_services (w : World) (ns : String := "all") : Rec × List ApiCall :=
  match (load_kubernetes_config w.cfg).1 with
  | .error e => (excRec s!"Error listing services: {e.str}", [])
  | .ok config_status =>
    let res := if pyLower ns = "all" then w.list_service_for_all_namespaces
      else w.list_namespaced_service ns
    let call := if pyLower ns = "all" then ApiCall.listSvcAll else ApiCall.listSvcNs ns
    match res with
    | .error (.apiException st reason _) => (apiErrRec reason st, [call])
    | .error e => (excRec s!"Error listing services: {e.str}", [call])
    | .ok services =>
      let service_list := services.map formatService
      ([("status", .s "success"),
        ("config_info", .s config_status),
        ("service_count", .i service_list.length),
        ("services", .arr service_list)], [call])

/-- Shallow embedding of `get_deployments` (lines 348-414): the result
dictionary paired with the API list calls issued. -/
def get_deployments (w : World) (ns : String := "all") : Rec × List ApiCall :=
  match (load_kubernetes_config w.cfg).1 with
  | .error e => (excRec s!"Error listing deployments: {e.str}", [])
  | .ok config_status =>
    let res := if pyLower ns = "all" then w.list_deployment_for_all_namespaces
      else w.list_namespaced_deployment ns
    let call := if pyLower ns = "all" then ApiCall.listDepAll else ApiCall.listDepNs ns
    match res with
    | .error (.apiException st reason _) => (apiErrRec reason st, [call])
    | .error e => (excRec s!"Error listing deployments: {e.str}", [call])
    | .ok deployments =>
      let deployment_list := deployments.map formatDeployment
      ([("status", .s "success"),
        ("config_info", .s config_status),
        ("deployment_count", .i deployment_list.length),
        ("deployments", .arr deployment_list)], [call])

/-- Shallow embedding of `describe_pod` (lines 546-685). -/
def describe_pod (w : World) (name : String) (ns : String := "default") : Rec :=
  match (load_kubernetes_config w.cfg).1 with
  | .error e => excRec s!"Error getting pod details: {e.str}"
  | .ok config_status =>
    match w.read_namespaced_pod name ns with
    | .error (.apiException st reason _) => apiErrRec reason st
    | .error e => excRec s!"Error getting pod details: {e.str}"
    | .ok pod =>
      [("status", .s "success"),
       ("config_info", .s config_status),
       ("pod", describePodDetails pod)]

/-- The container defaulting of get_logs (lines 463-465): an unspecified
container is replaced by the first container name when the pod has any. -/
def defaultContainer (container : Option String) (container_names : List String) :
    Option String :=
  if truthyStr container then container
  else match container_names with
    | n :: _ => some n
    | [] => container

/-- Shallow embedding of `get_logs` (lines 417-543): the result dictionary
paired with the API calls issued (the pod read, then the log read when one is
attempted). -/
def get_logs (w : World) (pod_name : String) (ns : String := "default")
    (container : Option String := none) (previous : Bool := false)
    (tail_lines : Option Int := none) (since_seconds : Option Int := none)
    (timestamps : Bool := false) : Rec × List ApiCall :=
  match (load_kubernetes_config w.cfg).1 with
  | .error e => (excRec s!"Error getting logs: {e.str}", [])
  | .ok config_status =>
    match w.read_namespaced_pod pod_name ns with
    | .error (.apiException st _ _) =>
      ([("status", .s "error"),
        ("error_message", .s s!"Pod '{pod_name}' not found in namespace '{ns}'"),
        ("error_code", .i st)], [.readPod pod_name ns])
    | .error e =>
      (excRec s!"Error getting logs: {e.str}", [.readPod pod_name ns])
    | .ok pod =>
      let container_names := pod.spec.containers.map (fun c => c.name)
      if truthyStr container = false ∧ container_names.length > 1 then
        ([("status", .s "error"),
          ("error_message", .s s!"Pod has multiple containers. Please specify one: {pyListRepr container_names}"),
          ("containers", .arr (container_names.map JVal.s))], [.readPod pod_name ns])
      else
        let kwargs : LogReq := {
          name := pod_name, ns := ns,
          container := defaultContainer container container_names,
          previous := previous, timestamps := timestamps,
          tail_lines := tail_lines, since_seconds := since_seconds }
        match w.read_namespaced_pod_log kwargs with
        | .ok logs =>
          let log_lines := if logs ≠ "" then pySplitChar '\n' logs else []
          (([("status", .s "success"),
             ("config_info", .s config_status),
             ("pod", .s pod_name),
             ("namespace", .s ns),
             ("container", jopt kwargs.container),
             ("log_lines_count", .i log_lines.length),
             ("logs", .s logs)]
            ++ (if truthyInt tail_lines then [("tail_lines_requested", jint tail_lines)] else [])
            ++ (if truthyInt since_seconds then [("since_seconds", jint since_seconds)] else [])
            ++ (if previous then [("from_previous_container", .b true)] else [])
            ++ (if timestamps then [("timestamps_included", .b true)] else [])
            ++ (if logs = "" ∨ pyStrip logs = "" then
                  [("message", .s "No logs found. The container might be starting up or not producing any output.")]
                else [])),
           [.readPod pod_name ns, .readLog kwargs])
        | .error (.apiException st reason body) =>
          let error_msg :=
            if st = 400 then
              if strContains "previous terminated container" (pyLower body) then
                "No previous terminated container found for this pod"
              else if strContains "container" (pyLower body) then
                s!"Container '{pyStr kwargs.container}' not found in pod. Available containers: {pyListRepr container_names}"
              else s!"Failed to get logs: {reason}"
            else if st = 404 then
              s!"Pod '{pod_name}' not found in namespace '{ns}'"
            else s!"Failed to get logs: {reason}"
          ([("status", .s "error"),
            ("error_message", .s error_msg),
            ("error_code", .i st)],
           [.readPod pod_name ns, .readLog kwargs])
        | .error e =>
          (excRec s!"Error getting logs: {e.str}",
           [.readPod pod_name ns, .readLog kwargs])

/-! ## Configuration resolution (claims C1 and C6) -/

/-- Reduction of the primary branch when the explicit-path guard holds. -/
lemma loadPrimary_explicit (w : ConfigWorld) (p : String) (hp : p ≠ "")
    (hex : w.pathExists p = true) :
    loadPrimary w (some p) =
      (match w.loadKubeConfigFile p with
       | .ok _ => (.ok s!"Loaded kubeconfig from: {p}", [.loadExplicit p])
       | .error e => (.error e, [.loadExplicit p])) := by
  unfold loadPrimary
  have hg : (p ≠ "" && w.pathExists p) = true := by simp [hp, hex]
  simp only [hg]
  rfl

/-- Reduction of the primary branch when the explicit-path guard fails. -/
lemma loadPrimary_not_explicit (w : ConfigWorld) (path : Option String)
    (h : explicitApplies w path = false) :
    loadPrimary w path = loadPrimary.loadEnvOrIncluster w := by
  unfold loadPrimary
  rcases path with _ | p
  · rfl
  · simp only [explicitApplies] at h
    simp only [h]
    rfl

/-- Reduction of the env/in-cluster branch with a truthy `KUBECONFIG`. -/
lemma loadEnvOrIncluster_env (w : ConfigWorld) (q : String)
    (hq : w.kubeconfigEnv = some q) (hqe : q ≠ "") :
    loadPrimary.loadEnvOrIncluster w =
      (match w.loadKubeConfigFile q with
       | .ok _ => (.ok s!"Loaded kubeconfig from KUBECONFIG env var: {q}", [.loadEnv q])
       | .error e => (.error e, [.loadEnv q])) := by
  unfold loadPrimary.loadEnvOrIncluster
  rw [hq]
  simp only [if_pos hqe]

/-- Reduction of the env/in-cluster branch with a falsy `KUBECONFIG`. -/
lemma loadEnvOrIncluster_incluster (w : ConfigWorld)
    (h : truthyStr w.kubeconfigEnv = false) :
    loadPrimary.loadEnvOrIncluster w =
      (match w.loadInclusterConfig with
       | .ok _ => (.ok "Loaded in-cluster config (running inside Kubernetes)", [.loadIncluster])
       | .error e => (.error e, [.loadIncluster])) := by
  unfold loadPrimary.loadEnvOrIncluster
  rcases hq : w.kubeconfigEnv with _ | q
  · rfl
  · simp only [truthyStr, hq] at h
    have hq0 : q = "" := by simpa using h
    subst hq0
    simp

/-- `load_kubernetes_config` when the primary branch returns normally. -/
lemma load_of_primary_ok (w : ConfigWorld) (path : Option String) (msg : String)
    (att : List ConfigAttempt) (h : loadPrimary w path = (.ok msg, att)) :
    load_kubernetes_config w path = (.ok msg, att) := by
  unfold load_kubernetes_config
  rw [h]

/-- `load_kubernetes_config` when the primary branch raises something that is
not a `ConfigException`: the exception escapes. -/
lemma load_of_primary_other (w : ConfigWorld) (path : Option String) (m : String)
    (att : List ConfigAttempt)
    (h : loadPrimary w path = (.error (.otherException m), att)) :
    load_kubernetes_config w path = (.error (.otherException m), att) := by
  unfold load_kubernetes_config
  rw [h]

/-- `load_kubernetes_config` when the primary branch raises `ConfigException`:
the default location is attempted. -/
lemma load_of_primary_cfgexc (w : ConfigWorld) (path : Option String) (m : String)
    (att : List ConfigAttempt)
    (h : loadPrimary w path = (.error (.configException m), att)) :
    load_kubernetes_config w path =
      (match w.loadKubeConfigDefault with
       | .ok _ => (.ok "Loaded kubeconfig from default location (~/.kube/config)",
           att ++ [.loadDefault])
       | .error fe => (.ok s!"Failed to load any Kubernetes config: {m}, {fe.str}",
           att ++ [.loadDefault])) := by
  unfold load_kubernetes_config
  rw [h]

/-- The env/in-cluster branch never attempts the default location. -/
lemma loadDefault_not_mem_loadEnvOrIncluster (w : ConfigWorld) :
    ConfigAttempt.loadDefault ∉ (loadPrimary.loadEnvOrIncluster w).2 := by
  cases henv : truthyStr w.kubeconfigEnv
  · rw [loadEnvOrIncluster_incluster w henv]
    rcases w.loadInclusterConfig with e | u <;> simp
  · rcases hq : w.kubeconfigEnv with _ | q
    · rw [hq] at henv
      simp [truthyStr] at henv
    · have hqe : q ≠ "" := by
        rw [hq] at henv
        simpa [truthyStr] using henv
      rw [loadEnvOrIncluster_env w q hq hqe]
      rcases w.loadKubeConfigFile q with e | u <;> simp

/-- The primary branch never attempts the default location: that attempt only
happens in the `except ConfigException` fallback. -/
lemma loadDefault_not_mem_loadPrimary (w : ConfigWorld) (path : Option String) :
    ConfigAttempt.loadDefault ∉ (loadPrimary w path).2 := by
  cases hex : explicitApplies w path
  · rw [loadPrimary_not_explicit w path hex]
    exact loadDefault_not_mem_loadEnvOrIncluster w
  · rcases path with _ | p
    · simp [explicitApplies] at hex
    · simp only [explicitApplies, Bool.and_eq_true, decide_eq_true_eq] at hex
      rw [loadPrimary_explicit w p hex.1 hex.2]
      rcases w.loadKubeConfigFile p with e | u <;> simp

/-- Claim C1: for every call to `load_kubernetes_config`, the credential source
chosen follows a fixed order in which the first applicable source wins: an
explicit path argument whose file exists is used first; otherwise a set
`KUBECONFIG` environment variable; otherwise in-cluster service-account
credentials; otherwise (when in-cluster loading fails) the default file
location `~/.kube/config`. -/
theorem C1_config_resolution_order (w : ConfigWorld) (path : Option String) :
    (∀ p, path = some p → p ≠ "" → w.pathExists p = true →
      (load_kubernetes_config w path).2.head? = some (.loadExplicit p) ∧
      (w.loadKubeConfigFile p = .ok () →
        (load_kubernetes_config w path).1 = .ok s!"Loaded kubeconfig from: {p}")) ∧
    (explicitApplies w path = false →
      ∀ p, w.kubeconfigEnv = some p → p ≠ "" →
      (load_kubernetes_config w path).2.head? = some (.loadEnv p) ∧
      (w.loadKubeConfigFile p = .ok () →
        (load_kubernetes_config w path).1 = .ok s!"Loaded kubeconfig from KUBECONFIG env var: {p}")) ∧
    (explicitApplies w path = false → truthyStr w.kubeconfigEnv = false →
      (load_kubernetes_config w path).2.head? = some .loadIncluster ∧
      (w.loadInclusterConfig = .ok () →
        (load_kubernetes_config w path).1 = .ok "Loaded in-cluster config (running inside Kubernetes)")) ∧
    (explicitApplies w path = false → truthyStr w.kubeconfigEnv = false →
      ∀ m, w.loadInclusterConfig = .error (.configException m) →
      (load_kubernetes_config w path).2 = [.loadIncluster, .loadDefault] ∧
      (w.loadKubeConfigDefault = .ok () →
        (load_kubernetes_config w path).1 =
          .ok "Loaded kubeconfig from default location (~/.kube/config)")) := by
  refine ⟨?_, ?_, ?_, ?_⟩
  · rintro p rfl hp hex
    have h1 := loadPrimary_explicit w p hp hex
    rcases hf : w.loadKubeConfigFile p with e | u
    · rw [hf] at h1
      rcases e with m | m
      · rw [load_of_primary_cfgexc w (some p) m _ h1]
        constructor
        · rcases w.loadKubeConfigDefault with fe | u2 <;> simp
        · intro hok
          exact Except.noConfusion hok
      · rw [load_of_primary_other w (some p) m _ h1]
        constructor
        · simp
        · intro hok
          exact Except.noConfusion hok
    · rw [hf] at h1
      rw [load_of_primary_ok w (some p) _ _ h1]
      exact ⟨rfl, fun _ => rfl⟩
  · intro hna p henv hp
    have h1 := (loadPrimary_not_explicit w path hna).trans (loadEnvOrIncluster_env w p henv hp)
    rcases hf : w.loadKubeConfigFile p with e | u
    · rw [hf] at h1
      rcases e with m | m
      · rw [load_of_primary_cfgexc w path m _ h1]
        constructor
        · rcases w.loadKubeConfigDefault with fe | u2 <;> simp
        · intro hok
          exact Except.noConfusion hok
      · rw [load_of_primary_other w path m _ h1]
        constructor
        · simp
        · intro hok
          exact Except.noConfusion hok
    · rw [hf] at h1
      rw [load_of_primary_ok w path _ _ h1]
      exact ⟨rfl, fun _ => rfl⟩
  · intro hna henv
    have h1 := (loadPrimary_not_explicit w path hna).trans (loadEnvOrIncluster_incluster w henv)
    rcases hf : w.loadInclusterConfig with e | u
    · rw [hf] at h1
      rcases e with m | m
      · rw [load_of_primary_cfgexc w path m _ h1]
        constructor
        · rcases w.loadKubeConfigDefault with fe | u2 <;> simp
        · intro hok
          exact Except.noConfusion hok
      · rw [load_of_primary_other w path m _ h1]
        constructor
        · simp
        · intro hok
          exact Except.noConfusion hok
    · rw [hf] at h1
      rw [load_of_primary_ok w path _ _ h1]
      exact ⟨rfl, fun _ => rfl⟩
  · intro hna henv m hin
    have h1 := (loadPrimary_not_explicit w path hna).trans (loadEnvOrIncluster_incluster w henv)
    rw [hin] at h1
    rw [load_of_primary_cfgexc w path m _ h1]
    rcases hd : w.loadKubeConfigDefault with fe | u2 <;> exact ⟨rfl, fun h => by simp_all⟩

/-- A config world where the explicit path exists and loads cleanly, the
environment variable is also set, and in-cluster credentials are absent. -/
def cwExplicitOk : ConfigWorld := {
  pathExists := fun p => p == "/home/user/kubeconfig",
  kubeconfigEnv := some "/env/kubeconfig",
  loadKubeConfigFile := fun _ => .ok (),
  loadInclusterConfig := .error (.configException "Service host/port is not set."),
  loadKubeConfigDefault := .ok () }

/-- Witness for C1: with an existing explicit path the explicit source is the
one attempted and its message is returned, even though `KUBECONFIG` is set. -/
theorem C1_config_resolution_order_witness :
    (load_kubernetes_config cwExplicitOk (some "/home/user/kubeconfig")).2.head? =
      some (.loadExplicit "/home/user/kubeconfig") ∧
    (load_kubernetes_config cwExplicitOk (some "/home/user/kubeconfig")).1 =
      .ok "Loaded kubeconfig from: /home/user/kubeconfig" := by
  have h := (C1_config_resolution_order cwExplicitOk (some "/home/user/kubeconfig")).1
    "/home/user/kubeconfig" rfl (by decide) (by decide)
  exact ⟨h.1, h.2 rfl⟩

/-- A config world whose explicit kubeconfig file exists but is invalid: the
loader raises `ConfigException`, so the code falls back to the default location
without ever attempting in-cluster credentials. -/
def cwBadExplicit : ConfigWorld := {
  pathExists := fun _ => true,
  kubeconfigEnv := none,
  loadKubeConfigFile := fun _ => .error (.configException "Invalid kube-config file."),
  loadInclusterConfig := .ok (),
  loadKubeConfigDefault := .ok () }

/-- Counterexample to C6 as stated: the fallback to the default location is
attempted although step 3 (in-cluster loading) was never attempted and would
have succeeded — a `ConfigException` from the explicit-path load also triggers
it. -/
theorem C6_fallback_counterexample :
    (load_kubernetes_config cwBadExplicit (some "/tmp/kubeconfig")).2 =
      [.loadExplicit "/tmp/kubeconfig", .loadDefault] ∧
    ConfigAttempt.loadIncluster ∉ (load_kubernetes_config cwBadExplicit (some "/tmp/kubeconfig")).2 ∧
    cwBadExplicit.loadInclusterConfig = .ok () := by
  refine ⟨by decide, by decide, rfl⟩

/-- Claim C6 (amended): the fallback load from the default kubeconfig location
is attempted exactly when the primary branch that ran — whichever of steps 1-3
it was — raises a `ConfigException`; and when that fallback also fails, the
returned result contains both the original failure message and the fallback
failure message concatenated. -/
theorem C6_fallback_exactly_on_config_exception (w : ConfigWorld) (path : Option String) :
    (ConfigAttempt.loadDefault ∈ (load_kubernetes_config w path).2 ↔
      ∃ m, (loadPrimary w path).1 = .error (.configException m)) ∧
    (∀ m fe, (loadPrimary w path).1 = .error (.configException m) →
      w.loadKubeConfigDefault = .error fe →
      (load_kubernetes_config w path).1 =
        .ok s!"Failed to load any Kubernetes config: {m}, {fe.str}") := by
  constructor
  · constructor
    · intro hmem
      unfold load_kubernetes_config at hmem
      rcases hp : loadPrimary w path with ⟨res, att⟩
      rw [hp] at hmem
      rcases res with e | msg
      · rcases e with m | m
        · exact ⟨m, rfl⟩
        · have hnm := loadDefault_not_mem_loadPrimary w path
          rw [hp] at hnm
          exact absurd hmem hnm
      · have hnm := loadDefault_not_mem_loadPrimary w path
        rw [hp] at hnm
        exact absurd hmem hnm
    · rintro ⟨m, hm⟩
      unfold load_kubernetes_config
      rcases hp : loadPrimary w path with ⟨res, att⟩
      rw [hp] at hm
      rcases res with e | msg
      · rcases e with m2 | m2
        · rcases w.loadKubeConfigDefault with fe | u <;> simp
        · exact absurd hm (by simp)
      · exact absurd hm (by simp)
  · intro m fe hm hd
    unfold load_kubernetes_config
    rcases hp : loadPrimary w path with ⟨res, att⟩
    rw [hp] at hm
    rcases res with e | msg
    · rcases e with m2 | m2
      · have hm2 : m2 = m := by simpa using hm
        subst hm2
        rw [hd]
      · exact absurd hm (by simp)
    · exact absurd hm (by simp)

/-- Witness for the amended C6: a world where every source fails; both failure
messages appear, concatenated, in the returned status string. -/
theorem C6_fallback_exactly_on_config_exception_witness :
    (load_kubernetes_config
      { pathExists := fun _ => false, kubeconfigEnv := none,
        loadKubeConfigFile := fun _ => .ok (),
        loadInclusterConfig := .error (.configException "Service host/port is not set."),
        loadKubeConfigDefault := .error (.otherException "No configuration found.") } none).1 =
      .ok "Failed to load any Kubernetes config: Service host/port is not set., No configuration found." := by
  exact (C6_fallback_exactly_on_config_exception _ none).2
    "Service host/port is not set." (.otherException "No configuration found.") rfl rfl

/-! ## Total, well-formed results (claim C2) -/

/-- A well-formed result record: it carries a `status` field equal to
`"success"` or `"error"`. Being a value of a total Lean function, it also
witnesses that the operation never propagates an exception. -/
def isStatusRec (r : Rec) : Prop :=
  getField r "status" = some (.s "success") ∨ getField r "status" = some (.s "error")

lemma status_get_pods (w : World) (ns : String) (sel : Option String) :
    isStatusRec (get_pods w ns sel).1 := by
  unfold isStatusRec get_pods
  try dsimp only
  repeat' split
  all_goals first | exact Or.inl rfl | exact Or.inr rfl

lemma status_get_nodes (w : World) : isStatusRec (get_nodes w) := by
  unfold isStatusRec get_nodes
  try dsimp only
  repeat' split
  all_goals first | exact Or.inl rfl | exact Or.inr rfl

lemma status_get_namespaces (w : World) : isStatusRec (get_namespaces w) := by
  unfold isStatusRec get_namespaces
  try dsimp only
  repeat' split
  all_goals first | exact Or.inl rfl | exact Or.inr rfl

lemma status_get_services (w : World) (ns : String) :
    isStatusRec (get_services w ns).1 := by
  unfold isStatusRec get_services
  try dsimp only
  repeat' split
  all_goals first | exact Or.inl rfl | exact Or.inr rfl

lemma status_get_deployments (w : World) (ns : String) :
    isStatusRec (get_deployments w ns).1 := by
  unfold isStatusRec get_deployments
  try dsimp only
  repeat' split
  all_goals first | exact Or.inl rfl | exact Or.inr rfl

lemma status_describe_pod (w : World) (name ns : String) :
    isStatusRec (describe_pod w name ns) := by
  unfold isStatusRec describe_pod
  try dsimp only
  repeat' split
  all_goals first | exact Or.inl rfl | exact Or.inr rfl

lemma status_get_logs (w : World) (pod_name ns : String) (container : Option String)
    (previous : Bool) (tail_lines since_seconds : Option Int) (timestamps : Bool) :
    isStatusRec (get_logs w pod_name ns container previous tail_lines since_seconds timestamps).1 := by
  unfold isStatusRec get_logs
  try dsimp only
  repeat' split
  all_goals first | exact Or.inl rfl | exact Or.inr rfl

/-- Claim C2: every public operation, for every input and every remote-call or
exception outcome, returns a dictionary containing a `status` field equal to
`"success"` or `"error"`, and never propagates an exception to its caller (each
embedded operation is a total function into result records). -/
theorem C2_every_operation_returns_status_record
    (w : World) (ns pod_name pns : String) (label_selector container : Option String)
    (previous timestamps : Bool) (tail_lines since_seconds : Option Int) :
    isStatusRec (get_pods w ns label_selector).1 ∧
    isStatusRec (get_nodes w) ∧
    isStatusRec (get_namespaces w) ∧
    isStatusRec (get_services w ns).1 ∧
    isStatusRec (get_deployments w ns).1 ∧
    isStatusRec (describe_pod w pod_name pns) ∧
    isStatusRec (get_logs w pod_name pns container previous tail_lines since_seconds timestamps).1 :=
  ⟨status_get_pods w ns label_selector, status_get_nodes w, status_get_namespaces w,
   status_get_services w ns, status_get_deployments w ns, status_describe_pod w pod_name pns,
   status_get_logs w pod_name pns container previous tail_lines since_seconds timestamps⟩

/-! ## Namespace scoping and counts of the list operations (claim C3) -/

lemma get_pods_calls (w : World) (ns : String) (sel : Option String) (cs : String)
    (hload : (load_kubernetes_config w.cfg).1 = .ok cs) :
    (get_pods w ns sel).2 =
      [if pyLower ns = "all" then ApiCall.listPodAll sel else ApiCall.listPodNs ns sel] := by
  unfold get_pods
  simp only [hload]
  try dsimp only
  rcases (if pyLower ns = "all" then w.list_pod_for_all_namespaces sel
      else w.list_namespaced_pod ns sel) with e | pods
  · rcases e with ⟨st, r, b⟩ | m <;> rfl
  · rfl

lemma get_services_calls (w : World) (ns : String) (cs : String)
    (hload : (load_kubernetes_config w.cfg).1 = .ok cs) :
    (get_services w ns).2 =
      [if pyLower ns = "all" then ApiCall.listSvcAll else ApiCall.listSvcNs ns] := by
  unfold get_services
  simp only [hload]
  try dsimp only
  rcases (if pyLower ns = "all" then w.list_service_for_all_namespaces
      else w.list_namespaced_service ns) with e | svcs
  · rcases e with ⟨st, r, b⟩ | m <;> rfl
  · rfl

lemma get_deployments_calls (w : World) (ns : String) (cs : String)
    (hload : (load_kubernetes_config w.cfg).1 = .ok cs) :
    (get_deployments w ns).2 =
      [if pyLower ns = "all" then ApiCall.listDepAll else ApiCall.listDepNs ns] := by
  unfold get_deployments
  simp only [hload]
  try dsimp only
  rcases (if pyLower ns = "all" then w.list_deployment_for_all_namespaces
      else w.list_namespaced_deployment ns) with e | deps
  · rcases e with ⟨st, r, b⟩ | m <;> rfl
  · rfl

lemma get_pods_ok (w : World) (ns : String) (sel : Option String) (cs : String)
    (pods : List PodItem)
    (hload : (load_kubernetes_config w.cfg).1 = .ok cs)
    (hres : (if pyLower ns = "all" then w.list_pod_for_all_namespaces sel
        else w.list_namespaced_pod ns sel) = .ok pods) :
    (get_pods w ns sel).1 =
      [("status", .s "success"), ("config_info", .s cs),
       ("pod_count", .i (pods.map formatPodInfo).length),
       ("pods", .arr (pods.map formatPodInfo))] := by
  unfold get_pods
  simp only [hload]
  try dsimp only
  rw [hres]

lemma get_services_ok (w : World) (ns : String) (cs : String)
    (svcs : List ServiceItem)
    (hload : (load_kubernetes_config w.cfg).1 = .ok cs)
    (hres : (if pyLower ns = "all" then w.list_service_for_all_namespaces
        else w.list_namespaced_service ns) = .ok svcs) :
    (get_services w ns).1 =
      [("status", .s "success"), ("config_info", .s cs),
       ("service_count", .i (svcs.map formatService).length),
       ("services", .arr (svcs.map formatService))] := by
  unfold get_services
  simp only [hload]
  try dsimp only
  rw [hres]

lemma get_deployments_ok (w : World) (ns : String) (cs : String)
    (deps : List DeploymentItem)
    (hload : (load_kubernetes_config w.cfg).1 = .ok cs)
    (hres : (if pyLower ns = "all" then w.list_deployment_for_all_namespaces
        else w.list_namespaced_deployment ns) = .ok deps) :
    (get_deployments w ns).1 =
      [("status", .s "success"), ("config_info", .s cs),
       ("deployment_count", .i (deps.map formatDeployment).length),
       ("deployments", .arr (deps.map formatDeployment))] := by
  unfold get_deployments
  simp only [hload]
  try dsimp only
  rw [hres]

/-- Claim C3: for every call to get_pods, get_services or get_deployments with
a loaded configuration, a namespace equal to "all" under case-insensitive
comparison issues the single cluster-wide list call, any other namespace
issues the list call scoped to exactly that namespace, and every success
result's count field equals the length of its resource sequence. -/
theorem C3_list_ops_namespace_scoping_and_count (w : World) (ns : String)
    (sel : Option String) (cs : String)
    (hload : (load_kubernetes_config w.cfg).1 = .ok cs) :
    (pyLower ns = "all" →
      (get_pods w ns sel).2 = [.listPodAll sel] ∧
      (get_services w ns).2 = [.listSvcAll] ∧
      (get_deployments w ns).2 = [.listDepAll]) ∧
    (pyLower ns ≠ "all" →
      (get_pods w ns sel).2 = [.listPodNs ns sel] ∧
      (get_services w ns).2 = [.listSvcNs ns] ∧
      (get_deployments w ns).2 = [.listDepNs ns]) ∧
    (∀ pods, (if pyLower ns = "all" then w.list_pod_for_all_namespaces sel
        else w.list_namespaced_pod ns sel) = .ok pods →
      getField (get_pods w ns sel).1 "pods" = some (.arr (pods.map formatPodInfo)) ∧
      getField (get_pods w ns sel).1 "pod_count" = some (.i (pods.map formatPodInfo).length)) ∧
    (∀ svcs, (if pyLower ns = "all" then w.list_service_for_all_namespaces
        else w.list_namespaced_service ns) = .ok svcs →
      getField (get_services w ns).1 "services" = some (.arr (svcs.map formatService)) ∧
      getField (get_services w ns).1 "service_count" = some (.i (svcs.map formatService).length)) ∧
    (∀ deps, (if pyLower ns = "all" then w.list_deployment_for_all_namespaces
        else w.list_namespaced_deployment ns) = .ok deps →
      getField (get_deployments w ns).1 "deployments" = some (.arr (deps.map formatDeployment)) ∧
      getField (get_deployments w ns).1 "deployment_count" =
        some (.i (deps.map formatDeployment).length)) := by
  refine ⟨?_, ?_, ?_, ?_, ?_⟩
  · intro hall
    rw [get_pods_calls w ns sel cs hload, get_services_calls w ns cs hload,
      get_deployments_calls w ns cs hload]
    simp [hall]
  · intro hall
    rw [get_pods_calls w ns sel cs hload, get_services_calls w ns cs hload,
      get_deployments_calls w ns cs hload]
    simp [hall]
  · intro pods hres
    rw [get_pods_ok w ns sel cs pods hload hres]
    exact ⟨rfl, rfl⟩
  · intro svcs hres
    rw [get_services_ok w ns cs svcs hload hres]
    exact ⟨rfl, rfl⟩
  · intro deps hres
    rw [get_deployments_ok w ns cs deps hload hres]
    exact ⟨rfl, rfl⟩

/-- A config world that resolves through the in-cluster source. -/
def cfgInclusterOk : ConfigWorld := {
  pathExists := fun _ => false,
  kubeconfigEnv := none,
  loadKubeConfigFile := fun _ => .ok (),
  loadInclusterConfig := .ok (),
  loadKubeConfigDefault := .ok () }

/-- A small demo pod. -/
def podApp : PodItem := {
  metadata := { name := some "app-1", ns := some "default",
                labels := some [("app", "nginx")] },
  spec := { node_name := some "node-a",
            containers := [{ name := "app" }] },
  status := { phase := some "Running", pod_ip := some "10.0.0.7" } }

/-- A second demo pod. -/
def podDb : PodItem := {
  metadata := { name := some "db-1", ns := some "prod" },
  spec := { containers := [{ name := "db" }] },
  status := { phase := some "Pending" } }

/-- A demo cluster world where every call succeeds. -/
def wDemo : World := {
  cfg := cfgInclusterOk,
  list_pod_for_all_namespaces := fun _ => .ok [podApp, podDb],
  list_namespaced_pod := fun _ _ => .ok [podApp],
  list_node := .ok [],
  list_namespace := .ok [],
  list_service_for_all_namespaces := .ok [],
  list_namespaced_service := fun _ => .ok [],
  list_deployment_for_all_namespaces := .ok [],
  list_namespaced_deployment := fun _ => .ok [],
  read_namespaced_pod := fun _ _ => .ok podApp,
  read_namespaced_pod_log := fun _ => .ok "hello\nworld" }

/-- Witness for C3: namespace "ALL" (upper case) issues the cluster-wide pod
list call and the returned pod_count is the length of the pods sequence. -/
theorem C3_list_ops_namespace_scoping_and_count_witness :
    (get_pods wDemo "ALL" none).2 = [.listPodAll none] ∧
    getField (get_pods wDemo "ALL" none).1 "pod_count" = some (.i 2) ∧
    (get_pods wDemo "staging" none).2 = [.listPodNs "staging" none] := by
  have h := C3_list_ops_namespace_scoping_and_count wDemo "ALL" none
    "Loaded in-cluster config (running inside Kubernetes)" rfl
  have h2 := C3_list_ops_namespace_scoping_and_count wDemo "staging" none
    "Loaded in-cluster config (running inside Kubernetes)" rfl
  refine ⟨(h.1 (by decide)).1, ?_, (h2.2.1 (by decide)).1⟩
  exact (h.2.2.1 [podApp, podDb] rfl).2

/-! ## Node roles (claim C5) -/

lemma get_nodes_ok (w : World) (cs : String) (nodes : List NodeItem)
    (hload : (load_kubernetes_config w.cfg).1 = .ok cs)
    (hres : w.list_node = .ok nodes) :
    get_nodes w =
      [("status", .s "success"), ("config_info", .s cs),
       ("node_count", .i (nodes.map formatNode).length),
       ("nodes", .arr (nodes.map formatNode))] := by
  unfold get_nodes
  simp only [hload]
  try dsimp only
  rw [hres]

/-- Modelled from the amended claim: a role for every label key CONTAINING
`node-role.kubernetes.io/` as a substring (not only as a prefix), namely the
key with every occurrence of that text removed, skipped when the removal
leaves the empty string; `["worker"]` when no key contributes. -/
def rolesAmended (labelKeys : List String) : List String :=
  let collected := labelKeys.filterMap
    (fun label_key =>
      if strContains "node-role.kubernetes.io/" label_key then
        let role := strRemoveAll "node-role.kubernetes.io/" label_key
        if role ≠ "" then some role else none
      else none)
  if collected.isEmpty then ["worker"] else collected

/-- A node whose only label key contains the role text as a proper infix but is
not prefixed by it. -/
def nodeOddLabel : NodeItem := {
  metadata := { name := some "n1",
                labels := some [("a.node-role.kubernetes.io/x", "true")] },
  status := {} }

/-- A world returning only that node. -/
def wOddNode : World := { wDemo with list_node := .ok [nodeOddLabel] }

/-- Counterexample to C5 as stated: no label key of this node is prefixed by
`node-role.kubernetes.io/`, yet the roles list is `["a.x"]` rather than
`["worker"]` — the code tests substring containment and removes every
occurrence, not a prefix. -/
theorem C5_node_roles_counterexample :
    ((nodeOddLabel.metadata.labels.getD []).map Prod.fst).all
      (fun k => !(("node-role.kubernetes.io/".data).isPrefixOf k.data)) = true ∧
    getField (get_nodes wOddNode) "nodes" = some (.arr [formatNode nodeOddLabel]) ∧
    jGetField (formatNode nodeOddLabel) "roles" = some (.arr [.s "a.x"]) ∧
    nodeRoles nodeOddLabel ≠ ["worker"] :=
  ⟨by decide, rfl, rfl, by decide⟩

/-- Claim C5 (amended): every node record of get_nodes carries the role list
derived from label keys containing `node-role.kubernetes.io/` (each key with
all occurrences of that text removed, empty removals skipped), `["worker"]`
when none contributes; in particular the key
`node-role.kubernetes.io/control-plane` yields `["control-plane"]` and a node
without such keys yields `["worker"]`. -/
theorem C5_node_roles (w : World) (cs : String) (nodes : List NodeItem)
    (hload : (load_kubernetes_config w.cfg).1 = .ok cs)
    (hres : w.list_node = .ok nodes) :
    getField (get_nodes w) "nodes" = some (.arr (nodes.map formatNode)) ∧
    (∀ node ∈ nodes, jGetField (formatNode node) "roles" =
      some (.arr ((rolesAmended ((node.metadata.labels.getD []).map Prod.fst)).map JVal.s))) ∧
    rolesAmended ["node-role.kubernetes.io/control-plane"] = ["control-plane"] ∧
    rolesAmended ["kubernetes.io/hostname", "kubernetes.io/os"] = ["worker"] := by
  refine ⟨?_, ?_, by decide, by decide⟩
  · rw [get_nodes_ok w cs nodes hload hres]
    rfl
  · intro node _
    rfl

/-- A control-plane node for the C5 witness. -/
def nodeControlPlane : NodeItem := {
  metadata := { name := some "cp",
                labels := some [("node-role.kubernetes.io/control-plane", "")] },
  status := {} }

/-- Witness for the amended C5: a control-plane node yields
`roles == ["control-plane"]` in the formatted output. -/
theorem C5_node_roles_witness :
    jGetField (formatNode nodeControlPlane) "roles" = some (.arr [.s "control-plane"]) := by
  have h := C5_node_roles { wDemo with list_node := .ok [nodeControlPlane] }
    "Loaded in-cluster config (running inside Kubernetes)" [nodeControlPlane] rfl rfl
  exact (h.2.1 nodeControlPlane (by simp)).trans rfl

/-! ## Container status state variants in describe_pod (claim C8) -/

lemma describe_pod_ok (w : World) (name ns : String) (cs : String) (pod : PodItem)
    (hload : (load_kubernetes_config w.cfg).1 = .ok cs)
    (hread : w.read_namespaced_pod name ns = .ok pod) :
    describe_pod w name ns =
      [("status", .s "success"), ("config_info", .s cs),
       ("pod", describePodDetails pod)] := by
  unfold describe_pod
  simp only [hload]
  rw [hread]

/-- Modelled from the amended claim: the single state variant a container
status entry carries — `running` wins over `terminated`, which wins over
`waiting`; no variant at all when the status has no state or a state with none
of the three members set. -/
def stateVariantAmended (c : ContainerStatus) : Option (String × JVal) :=
  match c.state with
  | none => none
  | some st =>
    match st.running with
    | some r => some ("running", .obj [("started_at", .s (pyStr r.started_at))])
    | none =>
      match st.terminated with
      | some t => some ("terminated", .obj [
          ("exit_code", jint t.exit_code),
          ("reason", jopt t.reason),
          ("message", jopt t.message)])
      | none =>
        match st.waiting with
        | some wa => some ("waiting", .obj [
            ("reason", jopt wa.reason),
            ("message", jopt wa.message)])
        | none => none

lemma state_field_eq (c : ContainerStatus) :
    jGetField (formatContainerStatusDetail c) "state" =
      (stateVariantAmended c).map (fun kv => JVal.obj [kv]) := by
  rcases c with ⟨nm, rd, rc, im, iid, cid, stOpt⟩
  rcases stOpt with _ | st
  · rfl
  · rcases st with ⟨ro, tm, wo⟩
    rcases ro with _ | r
    · rcases tm with _ | t
      · rcases wo with _ | wa
        · rfl
        · rfl
      · rfl
    · rfl

lemma stateVariantAmended_eq_none_iff (c : ContainerStatus) :
    stateVariantAmended c = none ↔
      (c.state = none ∨ ∃ st, c.state = some st ∧
        st.running = none ∧ st.terminated = none ∧ st.waiting = none) := by
  rcases c with ⟨nm, rd, rc, im, iid, cid, stOpt⟩
  rcases stOpt with _ | st
  · simp [stateVariantAmended]
  · rcases st with ⟨ro, tm, wo⟩
    rcases ro with _ | r
    · rcases tm with _ | t
      · rcases wo with _ | wa <;> simp [stateVariantAmended]
      · simp [stateVariantAmended]
    · simp [stateVariantAmended]

/-- A container status whose state object has none of the three members set:
the formatted entry then carries no state variant at all. -/
def csNoVariant : ContainerStatus :=
  { name := "c1", ready := false, restart_count := 0, state := some {} }

/-- A pod carrying that container status. -/
def podNoStateVariant : PodItem := {
  metadata := { name := some "p1", ns := some "default" },
  spec := { containers := [{ name := "c1" }] },
  status := { container_statuses := some [csNoVariant] } }

/-- A world whose pod read returns it. -/
def wNoStateVariant : World :=
  { wDemo with read_namespaced_pod := fun _ _ => .ok podNoStateVariant }

/-- Counterexample to C8 as stated: describe_pod succeeds on a pod whose only
container status has a state with no member populated, and the produced entry
has zero state variants — "never zero" fails. -/
theorem C8_container_state_counterexample :
    getField (describe_pod wNoStateVariant "p1" "default") "status" = some (.s "success") ∧
    getField (describe_pod wNoStateVariant "p1" "default") "pod" =
      some (describePodDetails podNoStateVariant) ∧
    jGetField (describePodDetails podNoStateVariant) "container_statuses" =
      some (.arr [formatContainerStatusDetail csNoVariant]) ∧
    jGetField (formatContainerStatusDetail csNoVariant) "state" = none :=
  ⟨rfl, rfl, rfl, rfl⟩

/-- Claim C8 (amended): every container-status entry produced by describe_pod
carries at most one of the three state variants (running beats terminated
beats waiting), and carries none exactly when the source status has no state
or a state with none of the three members set. -/
theorem C8_container_state_at_most_one (w : World) (name ns : String) (cs : String)
    (pod : PodItem)
    (hload : (load_kubernetes_config w.cfg).1 = .ok cs)
    (hread : w.read_namespaced_pod name ns = .ok pod) :
    getField (describe_pod w name ns) "pod" = some (describePodDetails pod) ∧
    ∀ c ∈ pod.status.container_statuses.getD [],
      jGetField (formatContainerStatusDetail c) "state" =
        (stateVariantAmended c).map (fun kv => JVal.obj [kv]) ∧
      (jGetField (formatContainerStatusDetail c) "state" = none ↔
        (c.state = none ∨ ∃ st, c.state = some st ∧
          st.running = none ∧ st.terminated = none ∧ st.waiting = none)) := by
  constructor
  · rw [describe_pod_ok w name ns cs pod hload hread]
    rfl
  · intro c _
    refine ⟨state_field_eq c, ?_⟩
    rw [state_field_eq c, Option.map_eq_none']
    exact stateVariantAmended_eq_none_iff c

/-- The running container status of the C8 witness pod. -/
def csRunning : ContainerStatus :=
  { name := "a", ready := true, restart_count := 0,
    state := some { running := some { started_at := some "2025-01-01 00:00:00+00:00" } } }

/-- The waiting container status of the C8 witness pod. -/
def csWaiting : ContainerStatus :=
  { name := "b", ready := false, restart_count := 2,
    state := some { waiting := some { reason := some "CrashLoopBackOff" } } }

/-- A pod with one running and one waiting container status. -/
def podRunWait : PodItem := {
  metadata := { name := some "p2", ns := some "default" },
  spec := { containers := [{ name := "a" }, { name := "b" }] },
  status := { container_statuses := some [csRunning, csWaiting] } }

/-- A world whose pod read returns it. -/
def wRunWait : World :=
  { wDemo with read_namespaced_pod := fun _ _ => .ok podRunWait }

/-- Witness for the amended C8: one running and one waiting status produce
disjoint single variants. -/
theorem C8_container_state_at_most_one_witness :
    jGetField (formatContainerStatusDetail csRunning) "state" =
      some (.obj [("running", .obj [("started_at", .s "2025-01-01 00:00:00+00:00")])]) ∧
    jGetField (formatContainerStatusDetail csWaiting) "state" =
      some (.obj [("waiting", .obj [("reason", .s "CrashLoopBackOff"), ("message", .null)])]) := by
  have h := C8_container_state_at_most_one wRunWait "p2" "default"
    "Loaded in-cluster config (running inside Kubernetes)" podRunWait rfl rfl
  exact ⟨((h.2 csRunning (by simp [podRunWait])).1).trans rfl,
         ((h.2 csWaiting (by simp [podRunWait])).1).trans rfl⟩

/-! ## Error record shape (claim C9) -/

/-- The error-record shape stated by the spec: exactly `status` and
`error_message`, plus an optional integer `error_code`. -/
def errShape (r : Rec) : Prop :=
  (∃ m, r = [("status", .s "error"), ("error_message", .s m)]) ∨
  (∃ m c, r = [("status", .s "error"), ("error_message", .s m), ("error_code", .i c)])

/-- The amended error-record shape for get_logs: additionally allows the
multiple-containers error, which carries a `containers` list of names. -/
def errShapeLogs (r : Rec) : Prop :=
  errShape r ∨
  (∃ m, ∃ names : List String, r = [("status", .s "error"), ("error_message", .s m),
    ("containers", .arr (names.map JVal.s))])

lemma errShape_get_pods (w : World) (ns : String) (sel : Option String) :
    getField (get_pods w ns sel).1 "status" = some (.s "error") →
      errShape (get_pods w ns sel).1 := by
  unfold errShape get_pods
  try dsimp only
  repeat' split
  all_goals intro h
  all_goals first
    | (exfalso; simp [getField, excRec, apiErrRec] at h; done)
    | exact Or.inl ⟨_, rfl⟩
    | exact Or.inr ⟨_, _, rfl⟩

lemma errShape_get_nodes (w : World) :
    getField (get_nodes w) "status" = some (.s "error") → errShape (get_nodes w) := by
  unfold errShape get_nodes
  try dsimp only
  repeat' split
  all_goals intro h
  all_goals first
    | (exfalso; simp [getField, excRec, apiErrRec] at h; done)
    | exact Or.inl ⟨_, rfl⟩
    | exact Or.inr ⟨_, _, rfl⟩

lemma errShape_get_namespaces (w : World) :
    getField (get_namespaces w) "status" = some (.s "error") →
      errShape (get_namespaces w) := by
  unfold errShape get_namespaces
  try dsimp only
  repeat' split
  all_goals intro h
  all_goals first
    | (exfalso; simp [getField, excRec, apiErrRec] at h; done)
    | exact Or.inl ⟨_, rfl⟩
    | exact Or.inr ⟨_, _, rfl⟩

lemma errShape_get_services (w : World) (ns : String) :
    getField (get_services w ns).1 "status" = some (.s "error") →
      errShape (get_services w ns).1 := by
  unfold errShape get_services
  try dsimp only
  repeat' split
  all_goals intro h
  all_goals first
    | (exfalso; simp [getField, excRec, apiErrRec] at h; done)
    | exact Or.inl ⟨_, rfl⟩
    | exact Or.inr ⟨_, _, rfl⟩

lemma errShape_get_deployments (w : World) (ns : String) :
    getField (get_deployments w ns).1 "status" = some (.s "error") →
      errShape (get_deployments w ns).1 := by
  unfold errShape get_deployments
  try dsimp only
  repeat' split
  all_goals intro h
  all_goals first
    | (exfalso; simp [getField, excRec, apiErrRec] at h; done)
    | exact Or.inl ⟨_, rfl⟩
    | exact Or.inr ⟨_, _, rfl⟩

lemma errShape_describe_pod (w : World) (name ns : String) :
    getField (describe_pod w name ns) "status" = some (.s "error") →
      errShape (describe_pod w name ns) := by
  unfold errShape describe_pod
  try dsimp only
  repeat' split
  all_goals intro h
  all_goals first
    | (exfalso; simp [getField, excRec, apiErrRec] at h; done)
    | exact Or.inl ⟨_, rfl⟩
    | exact Or.inr ⟨_, _, rfl⟩

lemma errShape_get_logs (w : World) (pod_name ns : String) (container : Option String)
    (previous : Bool) (tail_lines since_seconds : Option Int) (timestamps : Bool) :
    getField (get_logs w pod_name ns container previous tail_lines since_seconds timestamps).1
        "status" = some (.s "error") →
      errShapeLogs (get_logs w pod_name ns container previous tail_lines since_seconds
        timestamps).1 := by
  unfold errShapeLogs errShape get_logs
  try dsimp only
  repeat' split
  all_goals intro h
  all_goals first
    | (exfalso; simp [getField, excRec, apiErrRec] at h; done)
    | exact Or.inl (Or.inl ⟨_, rfl⟩)
    | exact Or.inl (Or.inr ⟨_, _, rfl⟩)
    | exact Or.inr ⟨_, _, rfl⟩

/-- Claim C9 (amended): every error result of every public operation has
exactly the shape `{status: "error", error_message: string, error_code?: int}`,
except the multiple-containers error of get_logs, which additionally carries a
`containers` field listing the container names. -/
theorem C9_error_record_shape (w : World) (ns pod_name pns : String)
    (label_selector container : Option String) (previous timestamps : Bool)
    (tail_lines since_seconds : Option Int) :
    (getField (get_pods w ns label_selector).1 "status" = some (.s "error") →
      errShape (get_pods w ns label_selector).1) ∧
    (getField (get_nodes w) "status" = some (.s "error") → errShape (get_nodes w)) ∧
    (getField (get_namespaces w) "status" = some (.s "error") →
      errShape (get_namespaces w)) ∧
    (getField (get_services w ns).1 "status" = some (.s "error") →
      errShape (get_services w ns).1) ∧
    (getField (get_deployments w ns).1 "status" = some (.s "error") →
      errShape (get_deployments w ns).1) ∧
    (getField (describe_pod w pod_name pns) "status" = some (.s "error") →
      errShape (describe_pod w pod_name pns)) ∧
    (getField (get_logs w pod_name pns container previous tail_lines since_seconds
        timestamps).1 "status" = some (.s "error") →
      errShapeLogs (get_logs w pod_name pns container previous tail_lines since_seconds
        timestamps).1) :=
  ⟨errShape_get_pods w ns label_selector, errShape_get_nodes w, errShape_get_namespaces w,
   errShape_get_services w ns, errShape_get_deployments w ns,
   errShape_describe_pod w pod_name pns,
   errShape_get_logs w pod_name pns container previous tail_lines since_seconds timestamps⟩

/-- A pod with two containers. -/
def podTwoContainers : PodItem := {
  metadata := { name := some "web", ns := some "default" },
  spec := { containers := [{ name := "app" }, { name := "sidecar" }] },
  status := { phase := some "Running" } }

/-- A world whose pod read returns the two-container pod. -/
def wTwoContainers : World :=
  { wDemo with read_namespaced_pod := fun _ _ => .ok podTwoContainers }

/-- Counterexample to C9 as stated: the multiple-containers error record of
get_logs carries a third field `containers` beyond status and error_message. -/
theorem C9_error_record_shape_counterexample :
    getField (get_logs wTwoContainers "web" "default" none false none none false).1 "status" =
      some (.s "error") ∧
    ((get_logs wTwoContainers "web" "default" none false none none false).1).map Prod.fst =
      ["status", "error_message", "containers"] :=
  ⟨rfl, by decide⟩

/-- Witness for the amended C9: the two-container world's get_logs error is of
the amended shape (its `containers` disjunct). -/
theorem C9_error_record_shape_witness :
    errShapeLogs (get_logs wTwoContainers "web" "default" none false none none false).1 :=
  (C9_error_record_shape wTwoContainers "default" "web" "default" none none false false
    none none).2.2.2.2.2.2 rfl

/-! ## get_logs: container selection, empty logs, pod-read errors
(claims C4, C7, C10) -/

/-- Claim C4: with no container argument, a pod whose spec lists more than one
container produces an error listing all container names and no log read is
attempted; a pod whose spec lists exactly one container has that container
used for the log read. -/
theorem C4_get_logs_container_defaulting (w : World) (pod_name ns : String)
    (previous : Bool) (tail_lines since_seconds : Option Int) (timestamps : Bool)
    (cs : String) (pod : PodItem)
    (hload : (load_kubernetes_config w.cfg).1 = .ok cs)
    (hread : w.read_namespaced_pod pod_name ns = .ok pod) :
    ((pod.spec.containers.map (fun c => c.name)).length > 1 →
      get_logs w pod_name ns none previous tail_lines since_seconds timestamps =
        ([("status", .s "error"),
          ("error_message", .s s!"Pod has multiple containers. Please specify one: {pyListRepr (pod.spec.containers.map (fun c => c.name))}"),
          ("containers", .arr ((pod.spec.containers.map (fun c => c.name)).map JVal.s))],
         [.readPod pod_name ns])) ∧
    (∀ n, pod.spec.containers.map (fun c => c.name) = [n] →
      (get_logs w pod_name ns none previous tail_lines since_seconds timestamps).2 =
        [.readPod pod_name ns,
         .readLog { name := pod_name, ns := ns, container := some n,
                    previous := previous, timestamps := timestamps,
                    tail_lines := tail_lines, since_seconds := since_seconds }]) := by
  constructor
  · intro hlen
    unfold get_logs
    simp only [hload, hread]
    rw [if_pos ⟨rfl, hlen⟩]
  · intro n hn
    unfold get_logs
    simp only [hload, hread]
    rw [hn]
    rw [if_neg (by simp)]
    split <;> rfl

/-- Witness for C4: a two-container pod with no container argument errors
listing both names without a log read; a one-container pod defaults the log
read to its single container. -/
theorem C4_get_logs_container_defaulting_witness :
    get_logs wTwoContainers "web" "default" none false none none false =
      ([("status", .s "error"),
        ("error_message", .s "Pod has multiple containers. Please specify one: ['app', 'sidecar']"),
        ("containers", .arr [.s "app", .s "sidecar"])],
       [.readPod "web" "default"]) ∧
    (get_logs wDemo "app-1" "default" none false none none false).2 =
      [.readPod "app-1" "default",
       .readLog { name := "app-1", ns := "default", container := some "app",
                  previous := false, timestamps := false }] := by
  constructor
  · exact ((C4_get_logs_container_defaulting wTwoContainers "web" "default" false none none
      false "Loaded in-cluster config (running inside Kubernetes)" podTwoContainers rfl
      rfl).1 (by decide)).trans rfl
  · exact (C4_get_logs_container_defaulting wDemo "app-1" "default" false none none false
      "Loaded in-cluster config (running inside Kubernetes)" podApp rfl rfl).2 "app" rfl

/-- Claim C7: whenever the log read returns an empty or whitespace-only string,
get_logs returns a success record whose logs field is the raw text, with the
explanatory message attached — never an error. -/
theorem C7_get_logs_empty_text_success (w : World) (pod_name ns : String)
    (container : Option String) (previous : Bool) (tail_lines since_seconds : Option Int)
    (timestamps : Bool) (cs : String) (pod : PodItem) (t : String)
    (hload : (load_kubernetes_config w.cfg).1 = .ok cs)
    (hread : w.read_namespaced_pod pod_name ns = .ok pod)
    (hsingle : ¬(truthyStr container = false ∧
      (pod.spec.containers.map (fun c => c.name)).length > 1))
    (hlog : w.read_namespaced_pod_log
      { name := pod_name, ns := ns,
        container := defaultContainer container (pod.spec.containers.map (fun c => c.name)),
        previous := previous, timestamps := timestamps,
        tail_lines := tail_lines, since_seconds := since_seconds } = .ok t)
    (hempty : pyStrip t = "") :
    getField (get_logs w pod_name ns container previous tail_lines since_seconds
      timestamps).1 "status" = some (.s "success") ∧
    getField (get_logs w pod_name ns container previous tail_lines since_seconds
      timestamps).1 "logs" = some (.s t) ∧
    ("message", JVal.s "No logs found. The container might be starting up or not producing any output.") ∈
      (get_logs w pod_name ns container previous tail_lines since_seconds timestamps).1 := by
  unfold get_logs
  simp only [hload, hread]
  rw [if_neg hsingle]
  rw [hlog]
  refine ⟨rfl, rfl, ?_⟩
  simp [hempty]

/-- A world whose log read returns the empty string. -/
def wEmptyLog : World := { wDemo with read_namespaced_pod_log := fun _ => .ok "" }

/-- Witness for C7: an empty log text yields a success record with
`logs == ""` and the explanatory message attached. -/
theorem C7_get_logs_empty_text_success_witness :
    getField (get_logs wEmptyLog "app-1" "default" none false none none false).1 "status" =
      some (.s "success") ∧
    getField (get_logs wEmptyLog "app-1" "default" none false none none false).1 "logs" =
      some (.s "") ∧
    ("message", JVal.s "No logs found. The container might be starting up or not producing any output.") ∈
      (get_logs wEmptyLog "app-1" "default" none false none none false).1 :=
  C7_get_logs_empty_text_success wEmptyLog "app-1" "default" none false none none false
    "Loaded in-cluster config (running inside Kubernetes)" podApp ""
    rfl rfl (by decide) rfl rfl

/-- Claim C10: whenever the initial pod read of get_logs raises ApiException —
for any HTTP status code, not only 404 — the returned error has the "not
found" message and that exception's status as error_code. -/
theorem C10_get_logs_read_error_message (w : World) (pod_name ns : String)
    (container : Option String) (previous : Bool) (tail_lines since_seconds : Option Int)
    (timestamps : Bool) (cs : String) (st : Int) (reason body : String)
    (hload : (load_kubernetes_config w.cfg).1 = .ok cs)
    (hread : w.read_namespaced_pod pod_name ns = .error (.apiException st reason body)) :
    get_logs w pod_name ns container previous tail_lines since_seconds timestamps =
      ([("status", .s "error"),
        ("error_message", .s s!"Pod '{pod_name}' not found in namespace '{ns}'"),
        ("error_code", .i st)], [.readPod pod_name ns]) := by
  unfold get_logs
  simp only [hload, hread]

/-- A world whose pod read fails with HTTP 403 (not 404). -/
def wRead403 : World :=
  { wDemo with read_namespaced_pod :=
      fun _ _ => .error (.apiException 403 "Forbidden" "RBAC: access denied") }

/-- Witness for C10: a 403 from the pod read still produces the "not found"
message, with error_code 403. -/
theorem C10_get_logs_read_error_message_witness :
    get_logs wRead403 "mypod" "team-a" none false none none false =
      ([("status", .s "error"),
        ("error_message", .s "Pod 'mypod' not found in namespace 'team-a'"),
        ("error_code", .i 403)], [.readPod "mypod" "team-a"]) :=
  (C10_get_logs_read_error_message wRead403 "mypod" "team-a" none false none none false
    "Loaded in-cluster config (running inside Kubernetes)" 403 "Forbidden"
    "RBAC: access denied" rfl rfl).trans rfl

end KubeAgent

